import Mathlib

/-!
Shallow embedding of `src/app/misc/adapter.ts` (Canton Wallet Adapter).

The adapter module keeps four module-level mutable references
(`_wallet`, `_onAcceptCallback`, `_onRejectCallback`, `_onDisconnectCallback`)
and exposes functions that forward to the browser-injected provider at
`window.nightly.canton`.  We model the mutable references as an explicit
`AdapterState`, the browser environment as an `Env` holding the optional
injected provider, and each adapter function as a pure function from the
state (and environment where the source reads `window`) to a result, a new
state, and a trace of externally observable actions (calls into the
provider / wallet object, callback invocations, console errors).

TS `any` values are modelled by the opaque wrapper `JsValue`; promise
resolution / rejection is modelled by `Except String`, the `String` being
the rejection error's message; callback function references are modelled
by identifier-carrying wrappers so that storing and invoking a particular
callback is observable.
-/

namespace CantonAdapter

/-- Model of a TS `any` value: an opaque payload. -/
structure JsValue where
  val : Nat
deriving DecidableEq, Repr

/-- enum SignRequestResponseType (adapter.ts lines 9-13). -/
inductive SignRequestResponseType where
  | SIGN_REQUEST_APPROVED
  | SIGN_REQUEST_REJECTED
  | SIGN_REQUEST_ERROR
deriving DecidableEq, Repr

/-- interface Instrument (adapter.ts lines 15-18). -/
structure Instrument where
  id : String
  admin : String
deriving DecidableEq, Repr

/-- interface CreateTransferCommandParams (adapter.ts lines 20-26). -/
structure CreateTransferCommandParams where
  receiverPartyId : String
  amount : String
  instrument : Instrument
  memo : Option String
  expiryDate : Option String
deriving DecidableEq, Repr

/-- The choice literal union "Accept" | "Reject" | "Withdraw". -/
inductive TransactionChoice where
  | Accept
  | Reject
  | Withdraw
deriving DecidableEq, Repr

/-- interface CreateTransactionChoiceCommandParams (adapter.ts lines 28-32). -/
structure CreateTransactionChoiceCommandParams where
  transferContractId : String
  choice : TransactionChoice
  instrument : Instrument
deriving DecidableEq, Repr

/-- interface TransactionCommand (adapter.ts lines 34-37). -/
structure TransactionCommand where
  command : JsValue
  disclosedContracts : List JsValue
deriving DecidableEq, Repr

/-- The data payload of a SignRequestResponse: one of the approved /
rejected / error interfaces (adapter.ts lines 39-50). -/
inductive SignRequestData where
  | approved (signature : Option String) (updateId : Option String)
  | rejected (reason : String)
  | error (error : String)
deriving DecidableEq, Repr

/-- interface SignRequestResponse (adapter.ts lines 52-58). -/
structure SignRequestResponse where
  type : SignRequestResponseType
  data : SignRequestData
deriving DecidableEq, Repr

/-- Result of CantonWallet.getHoldingTransactions (adapter.ts lines 64-67). -/
structure HoldingTransactionsPage where
  transactions : List JsValue
  nextOffset : Option String
deriving DecidableEq, Repr

/-- The "sender" | "receiver" literal union (adapter.ts line 72). -/
inductive PendingTransactionKind where
  | sender
  | receiver
deriving DecidableEq, Repr

/-- Element type of CantonWallet.getPendingTransactions results
(adapter.ts lines 68-74). -/
structure PendingTransaction where
  contractId : String
  instrumentId : Instrument
  type : PendingTransactionKind
deriving DecidableEq, Repr

/-- A reference to an onAccept callback function supplied by the UI
(identified opaquely). -/
structure AcceptCallback where
  id : Nat
deriving DecidableEq, Repr

/-- A reference to a zero-argument callback function (onReject /
onDisconnect) supplied by the UI. -/
structure SimpleCallback where
  id : Nat
deriving DecidableEq, Repr

/-- A reference to an onResponse callback passed to signMessage /
submitTransactionCommand. -/
structure ResponseCallback where
  id : Nat
deriving DecidableEq, Repr

/-- interface CantonWallet (adapter.ts lines 60-92): identity fields plus
the behaviour of each promise-returning method, modelled as its
resolution (`Except.ok`) or rejection (`Except.error message`).
`signMessage` and `submitTransactionCommand` are void methods that take the
response callback; the wallet owns their behaviour, so only the call itself
(with its exact arguments) is observable and no result field is needed. -/
structure CantonWallet where
  partyId : String
  publicKey : String
  authToken : String
  getHoldingTransactionsImpl : Except String HoldingTransactionsPage
  getPendingTransactionsImpl : Except String (List PendingTransaction)
  getHoldingUtxosImpl : Except String (List JsValue)
  getActiveContractsByInterfaceIdImpl : String → Except String (List JsValue)
  getActiveContractsByTemplateIdImpl : String → Except String (List JsValue)
  createTransferCommandImpl : CreateTransferCommandParams → Except String TransactionCommand
  createTransactionChoiceCommandImpl :
    CreateTransactionChoiceCommandParams → Except String TransactionCommand

/-- The value that the provider's own connect() resolves to
(adapter.ts lines 96-100); discarded by the adapter. -/
structure ConnectCredentials where
  partyId : String
  publicKey : String
  authToken : String
deriving DecidableEq, Repr

/-- interface NightlyCantonProvider extends CantonWallet
(adapter.ts lines 95-103).  `isConnectedImpl = none` models an injected
object whose `isConnected` is not a function (the source guards with
`typeof ... === "function"`). -/
structure NightlyCantonProvider extends CantonWallet where
  connectImpl : Except String ConnectCredentials
  disconnectImpl : Except String Unit
  isConnectedImpl : Option Bool

/-- The browser environment: `window.nightly?.canton`
(adapter.ts lines 106-112).  `none` covers `window` undefined, `nightly`
absent, or `canton` absent — the source only ever tests the whole chain. -/
structure Env where
  nightlyCanton : Option NightlyCantonProvider

/-- The adapter's module-level mutable state (adapter.ts lines 114-118). -/
structure AdapterState where
  wallet : Option CantonWallet
  onAcceptCallback : Option AcceptCallback
  onRejectCallback : Option SimpleCallback
  onDisconnectCallback : Option SimpleCallback

/-- The state before any adapter call: all four references are null. -/
def initialState : AdapterState :=
  { wallet := none
    onAcceptCallback := none
    onRejectCallback := none
    onDisconnectCallback := none }

/-- Externally observable actions an adapter operation can perform:
calls into the injected provider / stored wallet (with their exact
arguments), invocations of UI-supplied callbacks, and console errors. -/
inductive Action where
  | walletConnect
  | walletDisconnect
  | walletIsConnected
  | walletSignMessage (message : String) (onResponse : ResponseCallback)
  | walletSubmitTransactionCommand (cmd : TransactionCommand) (onResponse : ResponseCallback)
  | walletCreateTransferCommand (params : CreateTransferCommandParams)
  | walletCreateTransactionChoiceCommand (params : CreateTransactionChoiceCommandParams)
  | walletGetHoldingTransactions
  | walletGetPendingTransactions
  | walletGetHoldingUtxos
  | walletGetActiveContractsByInterfaceId (interfaceId : String)
  | walletGetActiveContractsByTemplateId (templateId : String)
  | invokeOnAccept (cb : AcceptCallback) (w : CantonWallet)
  | invokeOnReject (cb : SimpleCallback)
  | invokeOnDisconnect (cb : SimpleCallback)
  | invokeOnResponse (cb : ResponseCallback) (response : SignRequestResponse)
  | consoleError (msg : String)

/-- Whether an action is a call of a provider / wallet method (as opposed
to a callback invocation or console output). -/
def Action.isWalletCall : Action → Bool
  | Action.walletConnect => true
  | Action.walletDisconnect => true
  | Action.walletIsConnected => true
  | Action.walletSignMessage _ _ => true
  | Action.walletSubmitTransactionCommand _ _ => true
  | Action.walletCreateTransferCommand _ => true
  | Action.walletCreateTransactionChoiceCommand _ => true
  | Action.walletGetHoldingTransactions => true
  | Action.walletGetPendingTransactions => true
  | Action.walletGetHoldingUtxos => true
  | Action.walletGetActiveContractsByInterfaceId _ => true
  | Action.walletGetActiveContractsByTemplateId _ => true
  | Action.invokeOnAccept _ _ => false
  | Action.invokeOnReject _ => false
  | Action.invokeOnDisconnect _ => false
  | Action.invokeOnResponse _ _ => false
  | Action.consoleError _ => false

/-- The outcome of one adapter operation: its return value, the adapter
state it leaves behind, and the trace of observable actions it performed,
in order. -/
structure OpResult (α : Type) where
  result : α
  state : AdapterState
  trace : List Action

/-- isNightlyAvailable (adapter.ts lines 123-125). -/
def isNightlyAvailable (env : Env) : Bool :=
  env.nightlyCanton.isSome

/-- The options record accepted by init (adapter.ts lines 130-137).
An omitted callback option is `none`; the source coalesces it to null with
`|| null` (a supplied function is always truthy). -/
structure InitOptions where
  appName : String
  iconUrl : Option String
  network : Option String
  onAccept : Option AcceptCallback
  onReject : Option SimpleCallback
  onDisconnect : Option SimpleCallback

/-- init (adapter.ts lines 130-141): stores the three callback options
(null when omitted) and touches nothing else. -/
def init (options : InitOptions) (s : AdapterState) : AdapterState :=
  { s with
    onAcceptCallback := options.onAccept
    onRejectCallback := options.onReject
    onDisconnectCallback := options.onDisconnect }

/-- connect (adapter.ts lines 146-172). When the provider is unavailable:
console error, reject callback if set, resolve null.  Otherwise await the
provider's connect(); on success discard the resolved credentials, store
the provider object itself as the wallet, fire onAccept if set, and return
it; on rejection console error, fire onReject if set, resolve null with
the state untouched. -/
def connect (env : Env) (s : AdapterState) : OpResult (Option CantonWallet) :=
  match env.nightlyCanton with
  | none =>
    { result := none
      state := s
      trace :=
        Action.consoleError
            "Nightly Canton wallet is not available. Please install Nightly wallet extension." ::
          (match s.onRejectCallback with
           | some cb => [Action.invokeOnReject cb]
           | none => []) }
  | some p =>
    match p.connectImpl with
    | Except.ok _ =>
      { result := some p.toCantonWallet
        state := { s with wallet := some p.toCantonWallet }
        trace :=
          Action.walletConnect ::
            (match s.onAcceptCallback with
             | some cb => [Action.invokeOnAccept cb p.toCantonWallet]
             | none => []) }
    | Except.error e =>
      { result := none
        state := s
        trace :=
          Action.walletConnect ::
            Action.consoleError ("Failed to connect to Nightly Canton wallet: " ++ e) ::
              (match s.onRejectCallback with
               | some cb => [Action.invokeOnReject cb]
               | none => []) }

/-- disconnect (adapter.ts lines 177-194). When the provider is
unavailable: null the wallet and return (no callback).  Otherwise call the
provider's disconnect(), swallowing a rejection with a console error, then
null the wallet and fire onDisconnect if set. -/
def disconnect (env : Env) (s : AdapterState) : OpResult Unit :=
  match env.nightlyCanton with
  | none =>
    { result := ()
      state := { s with wallet := none }
      trace := [] }
  | some p =>
    { result := ()
      state := { s with wallet := none }
      trace :=
        (match p.disconnectImpl with
         | Except.ok _ => [Action.walletDisconnect]
         | Except.error e =>
           [Action.walletDisconnect,
            Action.consoleError ("Failed to disconnect from Nightly Canton wallet: " ++ e)]) ++
          (match s.onDisconnectCallback with
           | some cb => [Action.invokeOnDisconnect cb]
           | none => []) }

/-- getWallet (adapter.ts lines 199-201). -/
def getWallet (s : AdapterState) : Option CantonWallet :=
  s.wallet

/-- canEagerConnect (adapter.ts lines 206-217): false when the provider is
unavailable or its `isConnected` is not a function; otherwise the result
of calling `isConnected()` (the call is an observable provider action,
returned alongside the boolean). -/
def canEagerConnect (env : Env) : Bool × List Action :=
  match env.nightlyCanton with
  | none => (false, [])
  | some p =>
    match p.isConnectedImpl with
    | some b => (b, [Action.walletIsConnected])
    | none => (false, [])

/-- eagerConnect (adapter.ts lines 222-228): runs canEagerConnect (whose
isConnected call, when it happens, is part of the trace); on false
resolves null, otherwise delegates to connect. -/
def eagerConnect (env : Env) (s : AdapterState) : OpResult (Option CantonWallet) :=
  let c := canEagerConnect env
  if c.1 then
    let r := connect env s
    { result := r.result, state := r.state, trace := c.2 ++ r.trace }
  else
    { result := none, state := s, trace := c.2 }

/-- The response delivered when a sign / submit call finds no wallet. -/
def noWalletErrorResponse : SignRequestResponse :=
  { type := SignRequestResponseType.SIGN_REQUEST_ERROR
    data := SignRequestData.error "No wallet connected" }

/-- signMessage (adapter.ts lines 233-246): with no wallet, call the
supplied callback with a SIGN_REQUEST_ERROR response and return; otherwise
forward message and callback to the wallet's signMessage. -/
def signMessage (message : String) (onResponse : ResponseCallback)
    (s : AdapterState) : OpResult Unit :=
  match s.wallet with
  | none =>
    { result := ()
      state := s
      trace := [Action.invokeOnResponse onResponse noWalletErrorResponse] }
  | some _ =>
    { result := ()
      state := s
      trace := [Action.walletSignMessage message onResponse] }

/-- submitTransactionCommand (adapter.ts lines 277-290): with no wallet,
call the supplied callback with a SIGN_REQUEST_ERROR response and return;
otherwise forward the command and callback to the wallet. -/
def submitTransactionCommand (transactionCommand : TransactionCommand)
    (onResponse : ResponseCallback) (s : AdapterState) : OpResult Unit :=
  match s.wallet with
  | none =>
    { result := ()
      state := s
      trace := [Action.invokeOnResponse onResponse noWalletErrorResponse] }
  | some _ =>
    { result := ()
      state := s
      trace := [Action.walletSubmitTransactionCommand transactionCommand onResponse] }

/-- createTransferCommand (adapter.ts lines 251-259): reject with
"No wallet connected" when the wallet is null, else forward to the wallet
and return its promise. -/
def createTransferCommand (params : CreateTransferCommandParams)
    (s : AdapterState) : OpResult (Except String TransactionCommand) :=
  match s.wallet with
  | none =>
    { result := Except.error "No wallet connected", state := s, trace := [] }
  | some w =>
    { result := w.createTransferCommandImpl params
      state := s
      trace := [Action.walletCreateTransferCommand params] }

/-- createTransactionChoiceCommand (adapter.ts lines 264-272). -/
def createTransactionChoiceCommand (params : CreateTransactionChoiceCommandParams)
    (s : AdapterState) : OpResult (Except String TransactionCommand) :=
  match s.wallet with
  | none =>
    { result := Except.error "No wallet connected", state := s, trace := [] }
  | some w =>
    { result := w.createTransactionChoiceCommandImpl params
      state := s
      trace := [Action.walletCreateTransactionChoiceCommand params] }

/-- getHoldingTransactions (adapter.ts lines 295-304). -/
def getHoldingTransactions (s : AdapterState) :
    OpResult (Except String HoldingTransactionsPage) :=
  match s.wallet with
  | none =>
    { result := Except.error "No wallet connected", state := s, trace := [] }
  | some w =>
    { result := w.getHoldingTransactionsImpl
      state := s
      trace := [Action.walletGetHoldingTransactions] }

/-- getPendingTransactions (adapter.ts lines 309-315). -/
def getPendingTransactions (s : AdapterState) :
    OpResult (Except String (List PendingTransaction)) :=
  match s.wallet with
  | none =>
    { result := Except.error "No wallet connected", state := s, trace := [] }
  | some w =>
    { result := w.getPendingTransactionsImpl
      state := s
      trace := [Action.walletGetPendingTransactions] }

/-- getHoldingUtxos (adapter.ts lines 320-326). -/
def getHoldingUtxos (s : AdapterState) : OpResult (Except String (List JsValue)) :=
  match s.wallet with
  | none =>
    { result := Except.error "No wallet connected", state := s, trace := [] }
  | some w =>
    { result := w.getHoldingUtxosImpl
      state := s
      trace := [Action.walletGetHoldingUtxos] }

/-- getActiveContractsByInterfaceId (adapter.ts lines 331-339). -/
def getActiveContractsByInterfaceId (interfaceId : String) (s : AdapterState) :
    OpResult (Except String (List JsValue)) :=
  match s.wallet with
  | none =>
    { result := Except.error "No wallet connected", state := s, trace := [] }
  | some w =>
    { result := w.getActiveContractsByInterfaceIdImpl interfaceId
      state := s
      trace := [Action.walletGetActiveContractsByInterfaceId interfaceId] }

/-- getActiveContractsByTemplateId (adapter.ts lines 344-352). -/
def getActiveContractsByTemplateId (templateId : String) (s : AdapterState) :
    OpResult (Except String (List JsValue)) :=
  match s.wallet with
  | none =>
    { result := Except.error "No wallet connected", state := s, trace := [] }
  | some w =>
    { result := w.getActiveContractsByTemplateIdImpl templateId
      state := s
      trace := [Action.walletGetActiveContractsByTemplateId templateId] }


/-! Sample concrete values used by witnesses and counterexamples. -/

/-- A concrete wallet used as a test fixture. -/
def sampleWallet : CantonWallet :=
  { partyId := "party::1"
    publicKey := "pk"
    authToken := "tok"
    getHoldingTransactionsImpl := Except.ok { transactions := [⟨7⟩], nextOffset := some "off" }
    getPendingTransactionsImpl := Except.ok []
    getHoldingUtxosImpl := Except.ok [⟨3⟩]
    getActiveContractsByInterfaceIdImpl := fun i => Except.ok [⟨i.length⟩]
    getActiveContractsByTemplateIdImpl := fun t => Except.ok [⟨t.length⟩]
    createTransferCommandImpl := fun _ => Except.ok { command := ⟨0⟩, disclosedContracts := [] }
    createTransactionChoiceCommandImpl := fun _ => Except.error "choice failed" }

/-- A concrete provider whose every method succeeds. -/
def sampleProvider : NightlyCantonProvider :=
  { toCantonWallet := sampleWallet
    connectImpl := Except.ok { partyId := "party::1", publicKey := "pk", authToken := "tok" }
    disconnectImpl := Except.ok ()
    isConnectedImpl := some true }

/-- A concrete provider whose connect and disconnect reject and whose
isConnected returns false. -/
def failingProvider : NightlyCantonProvider :=
  { toCantonWallet := sampleWallet
    connectImpl := Except.error "user rejected"
    disconnectImpl := Except.error "session gone"
    isConnectedImpl := some false }

/-- A concrete adapter state with a connected wallet and all three
callbacks set. -/
def sampleState : AdapterState :=
  { wallet := some sampleWallet
    onAcceptCallback := some ⟨1⟩
    onRejectCallback := some ⟨2⟩
    onDisconnectCallback := some ⟨3⟩ }

/-- A concrete adapter state with no wallet but all three callbacks set. -/
def noWalletState : AdapterState :=
  { wallet := none
    onAcceptCallback := some ⟨1⟩
    onRejectCallback := some ⟨2⟩
    onDisconnectCallback := some ⟨3⟩ }

/-- A concrete transfer-params fixture. -/
def sampleTransferParams : CreateTransferCommandParams :=
  { receiverPartyId := "party::2"
    amount := "10"
    instrument := { id := "AMULET", admin := "dso" }
    memo := some "hi"
    expiryDate := none }

/-- A concrete choice-params fixture. -/
def sampleChoiceParams : CreateTransactionChoiceCommandParams :=
  { transferContractId := "contract1"
    choice := TransactionChoice.Accept
    instrument := { id := "AMULET", admin := "dso" } }

/-- A concrete transaction-command fixture. -/
def sampleCommand : TransactionCommand :=
  { command := ⟨42⟩, disclosedContracts := [⟨1⟩, ⟨2⟩] }

/-! Claim theorems. -/

/-- C1: every promise-returning adapter operation that requires a wallet
(createTransferCommand, createTransactionChoiceCommand,
getHoldingTransactions, getPendingTransactions, getHoldingUtxos,
getActiveContractsByInterfaceId, getActiveContractsByTemplateId) rejects
with "No wallet connected" when the stored wallet reference is null,
performs no wallet call at all (empty trace), and leaves the adapter state
(wallet reference and the three callbacks) unchanged. -/
theorem nullWallet_promise_ops_fail_cleanly (s : AdapterState) (h : s.wallet = none)
    (tp : CreateTransferCommandParams) (cp : CreateTransactionChoiceCommandParams)
    (iid tid : String) :
    createTransferCommand tp s =
      { result := Except.error "No wallet connected", state := s, trace := [] } ∧
    createTransactionChoiceCommand cp s =
      { result := Except.error "No wallet connected", state := s, trace := [] } ∧
    getHoldingTransactions s =
      { result := Except.error "No wallet connected", state := s, trace := [] } ∧
    getPendingTransactions s =
      { result := Except.error "No wallet connected", state := s, trace := [] } ∧
    getHoldingUtxos s =
      { result := Except.error "No wallet connected", state := s, trace := [] } ∧
    getActiveContractsByInterfaceId iid s =
      { result := Except.error "No wallet connected", state := s, trace := [] } ∧
    getActiveContractsByTemplateId tid s =
      { result := Except.error "No wallet connected", state := s, trace := [] } := by
  simp [createTransferCommand, createTransactionChoiceCommand, getHoldingTransactions,
    getPendingTransactions, getHoldingUtxos, getActiveContractsByInterfaceId,
    getActiveContractsByTemplateId, h]

/-- Witness for C1 at a concrete no-wallet state and concrete parameters. -/
theorem nullWallet_promise_ops_fail_cleanly_witness :
    noWalletState.wallet = none ∧
    createTransferCommand sampleTransferParams noWalletState =
      { result := Except.error "No wallet connected", state := noWalletState, trace := [] } ∧
    getHoldingUtxos noWalletState =
      { result := Except.error "No wallet connected", state := noWalletState, trace := [] } := by
  have h := nullWallet_promise_ops_fail_cleanly noWalletState rfl sampleTransferParams
    sampleChoiceParams "iface" "templ"
  exact ⟨rfl, h.1, h.2.2.2.2.1⟩

/-- C2: when the stored wallet reference is non-null, every
wallet-requiring adapter operation is a direct pass-through: its trace is
exactly one call of the corresponding wallet method with exactly the
arguments given (the response callback included for signMessage and
submitTransactionCommand), its result is exactly that method's result, and
the adapter state is unchanged. -/
theorem connected_ops_pass_through (s : AdapterState) (w : CantonWallet)
    (h : s.wallet = some w) (message : String) (onResponse : ResponseCallback)
    (tc : TransactionCommand) (tp : CreateTransferCommandParams)
    (cp : CreateTransactionChoiceCommandParams) (iid tid : String) :
    signMessage message onResponse s =
      { result := (), state := s, trace := [Action.walletSignMessage message onResponse] } ∧
    submitTransactionCommand tc onResponse s =
      { result := (), state := s,
        trace := [Action.walletSubmitTransactionCommand tc onResponse] } ∧
    createTransferCommand tp s =
      { result := w.createTransferCommandImpl tp, state := s,
        trace := [Action.walletCreateTransferCommand tp] } ∧
    createTransactionChoiceCommand cp s =
      { result := w.createTransactionChoiceCommandImpl cp, state := s,
        trace := [Action.walletCreateTransactionChoiceCommand cp] } ∧
    getHoldingTransactions s =
      { result := w.getHoldingTransactionsImpl, state := s,
        trace := [Action.walletGetHoldingTransactions] } ∧
    getPendingTransactions s =
      { result := w.getPendingTransactionsImpl, state := s,
        trace := [Action.walletGetPendingTransactions] } ∧
    getHoldingUtxos s =
      { result := w.getHoldingUtxosImpl, state := s,
        trace := [Action.walletGetHoldingUtxos] } ∧
    getActiveContractsByInterfaceId iid s =
      { result := w.getActiveContractsByInterfaceIdImpl iid, state := s,
        trace := [Action.walletGetActiveContractsByInterfaceId iid] } ∧
    getActiveContractsByTemplateId tid s =
      { result := w.getActiveContractsByTemplateIdImpl tid, state := s,
        trace := [Action.walletGetActiveContractsByTemplateId tid] } := by
  simp [signMessage, submitTransactionCommand, createTransferCommand,
    createTransactionChoiceCommand, getHoldingTransactions, getPendingTransactions,
    getHoldingUtxos, getActiveContractsByInterfaceId, getActiveContractsByTemplateId, h]

/-- Witness for C2 at a concrete connected state, including a wallet
method that rejects (createTransactionChoiceCommand) to show the rejection
is passed through unchanged. -/
theorem connected_ops_pass_through_witness :
    sampleState.wallet = some sampleWallet ∧
    getHoldingUtxos sampleState =
      { result := Except.ok [⟨3⟩], state := sampleState,
        trace := [Action.walletGetHoldingUtxos] } ∧
    createTransactionChoiceCommand sampleChoiceParams sampleState =
      { result := Except.error "choice failed", state := sampleState,
        trace := [Action.walletCreateTransactionChoiceCommand sampleChoiceParams] } ∧
    signMessage "hello" ⟨9⟩ sampleState =
      { result := (), state := sampleState,
        trace := [Action.walletSignMessage "hello" ⟨9⟩] } := by
  have h := connected_ops_pass_through sampleState sampleWallet rfl "hello" ⟨9⟩
    sampleCommand sampleTransferParams sampleChoiceParams "iface" "templ"
  exact ⟨rfl, h.2.2.2.2.2.2.1, h.2.2.2.1, h.1⟩

/-- C4: with a null wallet reference, signMessage and
submitTransactionCommand do not throw; each invokes the supplied response
callback exactly once (the trace is that single invocation) with a
response of type SIGN_REQUEST_ERROR carrying the error text
"No wallet connected", and the adapter state is unchanged. -/
theorem nullWallet_sign_submit_error_callback (s : AdapterState) (h : s.wallet = none)
    (message : String) (tc : TransactionCommand) (onResponse : ResponseCallback) :
    signMessage message onResponse s =
      { result := (), state := s,
        trace := [Action.invokeOnResponse onResponse
          { type := SignRequestResponseType.SIGN_REQUEST_ERROR
            data := SignRequestData.error "No wallet connected" }] } ∧
    submitTransactionCommand tc onResponse s =
      { result := (), state := s,
        trace := [Action.invokeOnResponse onResponse
          { type := SignRequestResponseType.SIGN_REQUEST_ERROR
            data := SignRequestData.error "No wallet connected" }] } := by
  simp [signMessage, submitTransactionCommand, noWalletErrorResponse, h]

/-- Witness for C4 at a concrete no-wallet state. -/
theorem nullWallet_sign_submit_error_callback_witness :
    noWalletState.wallet = none ∧
    signMessage "hello" ⟨9⟩ noWalletState =
      { result := (), state := noWalletState,
        trace := [Action.invokeOnResponse ⟨9⟩
          { type := SignRequestResponseType.SIGN_REQUEST_ERROR
            data := SignRequestData.error "No wallet connected" }] } ∧
    submitTransactionCommand sampleCommand ⟨9⟩ noWalletState =
      { result := (), state := noWalletState,
        trace := [Action.invokeOnResponse ⟨9⟩
          { type := SignRequestResponseType.SIGN_REQUEST_ERROR
            data := SignRequestData.error "No wallet connected" }] } := by
  have h := nullWallet_sign_submit_error_callback noWalletState rfl "hello" sampleCommand ⟨9⟩
  exact ⟨rfl, h.1, h.2⟩

/-- C3 counterexample: at a concrete state with all three callbacks set,
after disconnect the accept callback reference is still set, so the
connection state is not reset to its initial all-null values. -/
theorem disconnect_state_not_reset_counterexample :
    (disconnect { nightlyCanton := some sampleProvider } sampleState).state.onAcceptCallback =
      some ⟨1⟩ ∧
    initialState.onAcceptCallback = none ∧
    (disconnect { nightlyCanton := some sampleProvider } sampleState).state ≠ initialState := by
  refine ⟨by simp [disconnect, sampleState, sampleProvider], rfl, fun h => ?_⟩
  have h2 := congrArg AdapterState.onAcceptCallback h
  simp [disconnect, sampleState, sampleProvider, initialState] at h2

/-- C3 amended: after any disconnect call the wallet reference is reset to
null, but the three callback references (accept, reject, disconnect) are
left unchanged, not reset. -/
theorem disconnect_nulls_wallet_keeps_callbacks (env : Env) (s : AdapterState) :
    (disconnect env s).state.wallet = none ∧
    (disconnect env s).state.onAcceptCallback = s.onAcceptCallback ∧
    (disconnect env s).state.onRejectCallback = s.onRejectCallback ∧
    (disconnect env s).state.onDisconnectCallback = s.onDisconnectCallback := by
  obtain ⟨_ | p⟩ := env <;> simp [disconnect]

/-- C5: whenever connect fails — the injected provider is unavailable, or
the provider's connect method rejects — connect resolves to null (the
model function is total: it always returns a value, never a rejection),
invokes the reject callback when one is set, and leaves the adapter state
(in particular the stored wallet reference) unchanged. -/
theorem connect_failure_resolves_null (env : Env) (s : AdapterState)
    (h : env.nightlyCanton = none ∨
      ∃ p e, env.nightlyCanton = some p ∧ p.connectImpl = Except.error e) :
    (connect env s).result = none ∧
    (connect env s).state = s ∧
    (∀ cb, s.onRejectCallback = some cb →
      Action.invokeOnReject cb ∈ (connect env s).trace) := by
  rcases h with h | ⟨p, e, hp, hc⟩
  · refine ⟨by simp [connect, h], by simp [connect, h], ?_⟩
    intro cb hcb
    simp [connect, h, hcb]
  · refine ⟨by simp [connect, hp, hc], by simp [connect, hp, hc], ?_⟩
    intro cb hcb
    simp [connect, hp, hc, hcb]

/-- Witness for C5: both failure modes at concrete inputs — the provider
absent, and a concrete provider whose connect rejects. -/
theorem connect_failure_resolves_null_witness :
    (connect { nightlyCanton := none } sampleState).result = none ∧
    (connect { nightlyCanton := none } sampleState).state = sampleState ∧
    Action.invokeOnReject ⟨2⟩ ∈ (connect { nightlyCanton := none } sampleState).trace ∧
    (connect { nightlyCanton := some failingProvider } sampleState).result = none ∧
    Action.invokeOnReject ⟨2⟩ ∈
      (connect { nightlyCanton := some failingProvider } sampleState).trace := by
  have h1 := connect_failure_resolves_null { nightlyCanton := none } sampleState (Or.inl rfl)
  have h2 := connect_failure_resolves_null { nightlyCanton := some failingProvider }
    sampleState (Or.inr ⟨failingProvider, "user rejected", rfl, rfl⟩)
  exact ⟨h1.1, h1.2.1, h1.2.2 ⟨2⟩ rfl, h2.1, h2.2.2 ⟨2⟩ rfl⟩

/-- C6: for every prior adapter state, a successful connect overwrites the
stored wallet reference with the newly connected wallet and invokes the
accept callback with that wallet when one is set; and every disconnect
call overwrites the wallet reference with null — neither operation is
blocked by the previous connection state. -/
theorem connect_disconnect_overwrite (env : Env) (s : AdapterState)
    (p : NightlyCantonProvider) (creds : ConnectCredentials)
    (hp : env.nightlyCanton = some p) (hc : p.connectImpl = Except.ok creds) :
    (connect env s).result = some p.toCantonWallet ∧
    (connect env s).state.wallet = some p.toCantonWallet ∧
    (∀ cb, s.onAcceptCallback = some cb →
      Action.invokeOnAccept cb p.toCantonWallet ∈ (connect env s).trace) ∧
    (∀ env2 s2, (disconnect env2 s2).state.wallet = none) := by
  refine ⟨by simp [connect, hp, hc], by simp [connect, hp, hc], ?_, ?_⟩
  · intro cb hcb
    simp [connect, hp, hc, hcb]
  · intro env2 s2
    obtain ⟨_ | q⟩ := env2 <;> simp [disconnect]

/-- Witness for C6: a successful connect over a state that already has a
wallet and callbacks, plus a disconnect, at concrete inputs. -/
theorem connect_disconnect_overwrite_witness :
    (connect { nightlyCanton := some sampleProvider } sampleState).result =
      some sampleProvider.toCantonWallet ∧
    (connect { nightlyCanton := some sampleProvider } sampleState).state.wallet =
      some sampleWallet ∧
    Action.invokeOnAccept ⟨1⟩ sampleProvider.toCantonWallet ∈
      (connect { nightlyCanton := some sampleProvider } sampleState).trace ∧
    (disconnect { nightlyCanton := none } sampleState).state.wallet = none := by
  have h := connect_disconnect_overwrite { nightlyCanton := some sampleProvider } sampleState
    sampleProvider { partyId := "party::1", publicKey := "pk", authToken := "tok" } rfl rfl
  exact ⟨h.1, h.2.1, h.2.2.1 ⟨1⟩ rfl, h.2.2.2 { nightlyCanton := none } sampleState⟩

/-- C7: init stores exactly the callbacks supplied in its options — each
of the accept, reject and disconnect references becomes the supplied
function, or null when that option is omitted — and changes nothing else:
the stored wallet reference is unchanged. -/
theorem init_sets_exactly_the_callbacks (options : InitOptions) (s : AdapterState) :
    (init options s).onAcceptCallback = options.onAccept ∧
    (init options s).onRejectCallback = options.onReject ∧
    (init options s).onDisconnectCallback = options.onDisconnect ∧
    (init options s).wallet = s.wallet :=
  ⟨rfl, rfl, rfl, rfl⟩

/-- C8: disconnect always resolves (the model returns for every input):
when the provider's disconnect rejects, the error is swallowed with a
console error, the wallet reference is still nulled, and the disconnect
callback (when set) is still invoked; when the provider is unavailable,
the wallet reference is nulled and the call returns with an empty trace —
in particular without invoking the disconnect callback. -/
theorem disconnect_always_resolves (env : Env) (s : AdapterState) :
    (disconnect env s).result = () ∧
    (disconnect env s).state.wallet = none ∧
    (env.nightlyCanton = none → (disconnect env s).trace = []) ∧
    (∀ p, env.nightlyCanton = some p → ∀ e, p.disconnectImpl = Except.error e →
      Action.consoleError ("Failed to disconnect from Nightly Canton wallet: " ++ e) ∈
        (disconnect env s).trace) ∧
    (∀ p, env.nightlyCanton = some p → ∀ cb, s.onDisconnectCallback = some cb →
      Action.invokeOnDisconnect cb ∈ (disconnect env s).trace) := by
  obtain ⟨oc⟩ := env
  cases oc with
  | none =>
    refine ⟨rfl, by simp [disconnect], fun _ => by simp [disconnect], ?_, ?_⟩
    · intro p hp
      simp at hp
    · intro p hp
      simp at hp
  | some p =>
    refine ⟨rfl, by simp [disconnect], ?_, ?_, ?_⟩
    · intro h
      simp at h
    · intro q hq e he
      have hpq : p = q := by simpa using hq
      subst hpq
      simp [disconnect, he]
    · intro q hq cb hcb
      have hpq : p = q := by simpa using hq
      subst hpq
      cases hd : p.disconnectImpl <;> simp [disconnect, hcb, hd]

/-- Witness for C8: a concrete provider whose disconnect rejects (error
swallowed, wallet nulled, callback fired) and a concrete environment with
no provider (empty trace). -/
theorem disconnect_always_resolves_witness :
    (disconnect { nightlyCanton := some failingProvider } sampleState).state.wallet = none ∧
    Action.consoleError ("Failed to disconnect from Nightly Canton wallet: " ++ "session gone") ∈
      (disconnect { nightlyCanton := some failingProvider } sampleState).trace ∧
    Action.invokeOnDisconnect ⟨3⟩ ∈
      (disconnect { nightlyCanton := some failingProvider } sampleState).trace ∧
    (disconnect { nightlyCanton := none } sampleState).trace = [] := by
  have h1 := disconnect_always_resolves { nightlyCanton := some failingProvider } sampleState
  have h2 := disconnect_always_resolves { nightlyCanton := none } sampleState
  exact ⟨h1.2.1, h1.2.2.2.1 failingProvider rfl "session gone" rfl,
    h1.2.2.2.2 failingProvider rfl ⟨3⟩ rfl, h2.2.2.1 rfl⟩

/-- C9 counterexample: with a provider present whose isConnected function
returns false, canEagerConnect returns false and eagerConnect returns
null, yet eagerConnect does call a provider method — the isConnected call
is in its trace — contradicting "without calling any provider method". -/
theorem eagerConnect_counterexample :
    (canEagerConnect { nightlyCanton := some failingProvider }).1 = false ∧
    (eagerConnect { nightlyCanton := some failingProvider } initialState).result = none ∧
    Action.walletIsConnected ∈
      (eagerConnect { nightlyCanton := some failingProvider } initialState).trace ∧
    Action.walletIsConnected.isWalletCall = true := by
  refine ⟨rfl, rfl, ?_, rfl⟩
  simp [eagerConnect, canEagerConnect, failingProvider]

/-- C9 amended: canEagerConnect returns true only when the provider is
available, exposes an isConnected function, and that function returns
true; whenever canEagerConnect returns false, eagerConnect returns null
without invoking any callback and without changing the adapter state, the
only provider method possibly called being isConnected (every action in
its trace is that call); whenever canEagerConnect returns true,
eagerConnect behaves exactly as connect apart from the leading isConnected
check: same result, same final state, and connect's trace preceded by the
check's actions. -/
theorem canEagerConnect_eagerConnect_spec (env : Env) (s : AdapterState) :
    ((canEagerConnect env).1 = true →
      ∃ p, env.nightlyCanton = some p ∧ p.isConnectedImpl = some true) ∧
    ((canEagerConnect env).1 = false →
      (eagerConnect env s).result = none ∧
      (eagerConnect env s).state = s ∧
      (∀ a ∈ (eagerConnect env s).trace, a = Action.walletIsConnected)) ∧
    ((canEagerConnect env).1 = true →
      (eagerConnect env s).result = (connect env s).result ∧
      (eagerConnect env s).state = (connect env s).state ∧
      (eagerConnect env s).trace = (canEagerConnect env).2 ++ (connect env s).trace) := by
  obtain ⟨oc⟩ := env
  cases oc with
  | none =>
    refine ⟨fun h => ?_, fun _ => ?_, fun h => ?_⟩
    · simp [canEagerConnect] at h
    · refine ⟨rfl, rfl, ?_⟩
      intro a ha
      simp [eagerConnect, canEagerConnect] at ha
    · simp [canEagerConnect] at h
  | some p =>
    cases hic : p.isConnectedImpl with
    | none =>
      refine ⟨fun h => ?_, fun _ => ?_, fun h => ?_⟩
      · simp [canEagerConnect, hic] at h
      · refine ⟨by simp [eagerConnect, canEagerConnect, hic],
          by simp [eagerConnect, canEagerConnect, hic], ?_⟩
        intro a ha
        simp [eagerConnect, canEagerConnect, hic] at ha
      · simp [canEagerConnect, hic] at h
    | some b =>
      cases b with
      | false =>
        refine ⟨fun h => ?_, fun _ => ?_, fun h => ?_⟩
        · simp [canEagerConnect, hic] at h
        · refine ⟨by simp [eagerConnect, canEagerConnect, hic],
            by simp [eagerConnect, canEagerConnect, hic], ?_⟩
          intro a ha
          simpa [eagerConnect, canEagerConnect, hic] using ha
        · simp [canEagerConnect, hic] at h
      | true =>
        refine ⟨fun _ => ⟨p, rfl, hic⟩, fun h => ?_, fun _ => ?_⟩
        · simp [canEagerConnect, hic] at h
        · exact ⟨by simp [eagerConnect, canEagerConnect, hic],
            by simp [eagerConnect, canEagerConnect, hic],
            by simp [eagerConnect, canEagerConnect, hic]⟩

/-- Witness for C9 (amended) at concrete inputs: a provider whose
isConnected returns true (eagerConnect agrees with connect after the
check) and one whose isConnected returns false (eagerConnect yields
null). -/
theorem canEagerConnect_eagerConnect_spec_witness :
    (canEagerConnect { nightlyCanton := some sampleProvider }).1 = true ∧
    (eagerConnect { nightlyCanton := some sampleProvider } initialState).result =
      (connect { nightlyCanton := some sampleProvider } initialState).result ∧
    (eagerConnect { nightlyCanton := some sampleProvider } initialState).trace =
      Action.walletIsConnected ::
        (connect { nightlyCanton := some sampleProvider } initialState).trace ∧
    (canEagerConnect { nightlyCanton := some failingProvider }).1 = false ∧
    (eagerConnect { nightlyCanton := some failingProvider } initialState).result = none := by
  have h1 := canEagerConnect_eagerConnect_spec { nightlyCanton := some sampleProvider }
    initialState
  have h2 := canEagerConnect_eagerConnect_spec { nightlyCanton := some failingProvider }
    initialState
  refine ⟨rfl, (h1.2.2 rfl).1, ?_, rfl, (h2.2.1 rfl).1⟩
  have h3 := (h1.2.2 rfl).2.2
  simpa [canEagerConnect, sampleProvider] using h3

/-- C10: on a successful connect the value stored as the wallet — also the
value connect returns, the value passed to the accept callback, and the
value getWallet returns afterwards — is the injected provider object
itself, and the credentials that the provider's connect resolved to are
discarded: replacing them by any other credentials changes nothing about
connect's outcome. -/
theorem connect_stores_provider_object (env : Env) (s : AdapterState)
    (p : NightlyCantonProvider) (creds : ConnectCredentials)
    (hp : env.nightlyCanton = some p) (hc : p.connectImpl = Except.ok creds) :
    (connect env s).result = some p.toCantonWallet ∧
    getWallet (connect env s).state = some p.toCantonWallet ∧
    (∀ cb, s.onAcceptCallback = some cb →
      Action.invokeOnAccept cb p.toCantonWallet ∈ (connect env s).trace) ∧
    (∀ creds2 : ConnectCredentials,
      connect { nightlyCanton := some { p with connectImpl := Except.ok creds2 } } s =
        connect env s) := by
  refine ⟨by simp [connect, hp, hc], by simp [connect, getWallet, hp, hc], ?_, ?_⟩
  · intro cb hcb
    simp [connect, hp, hc, hcb]
  · intro creds2
    simp [connect, hp, hc]

/-- Witness for C10: at a concrete provider, altering the credentials the
provider's connect resolves to does not change connect's outcome, and the
stored / returned value is the provider object. -/
theorem connect_stores_provider_object_witness :
    (connect { nightlyCanton := some sampleProvider } sampleState).result =
      some sampleProvider.toCantonWallet ∧
    getWallet (connect { nightlyCanton := some sampleProvider } sampleState).state =
      some sampleProvider.toCantonWallet ∧
    connect { nightlyCanton := some { sampleProvider with
        connectImpl := Except.ok { partyId := "other", publicKey := "x", authToken := "y" } } }
      sampleState =
      connect { nightlyCanton := some sampleProvider } sampleState := by
  have h := connect_stores_provider_object { nightlyCanton := some sampleProvider } sampleState
    sampleProvider { partyId := "party::1", publicKey := "pk", authToken := "tok" } rfl rfl
  exact ⟨h.1, h.2.1, h.2.2.2 { partyId := "other", publicKey := "x", authToken := "y" }⟩

end CantonAdapter
